import Mathlib

/-!
Verification of the PWAHandler development HTTP server (server.py).

The server wraps a standard static-file request handler:
the overridden do_GET redirects the root path (or the empty path) to
the path /forked/ with a 301, strips the leading /forked from paths
under /forked/, rewrites the exact path /forked to the root path, and
rejects every other path with a 404; the overridden end_headers injects
a Service-Worker-Allowed header on every response, plus cache-control
headers chosen by the extension of the request path as it stands at
end-of-headers time; all other behaviour is inherited from the
underlying library.

Paths, header names and header values are modelled as lists of
characters (Python strings are character sequences).  The served
filesystem is an abstract read-only map from paths to optional file
contents.
-/

namespace PWAServer

/-- Characters of a string literal, used to write the string constants
of the Python source. -/
def str (s : String) : List Char := s.data

/-- An abstract served filesystem: maps a path to the bytes of the file
stored there, or none when no file exists at that path. -/
def FS : Type := List Char → Option (List Char)

/-- An incoming HTTP request: its method name and its raw request path. -/
structure Request where
  method : List Char
  path : List Char
deriving DecidableEq

/-- A response as observed on the wire: status code, the headers sent
explicitly by the handler code (in the order they are buffered), and the
body. -/
structure Response where
  status : Nat
  headers : List (List Char × List Char)
  body : List Char
deriving DecidableEq

/-- The three-way outcome of PWAHandler.do_GET before any delegation: an
immediate 301 redirect, an immediate 404 error, or delegation to the
inherited do_GET with the rewritten request path. -/
inductive GetOutcome where
  | redirect (location : List Char)
  | notFound (message : List Char)
  | delegate (rewritten : List Char)
deriving DecidableEq

/-- PWAHandler.do_GET (server.py lines 9-30): for the root path or the
empty path, answer a 301 redirect to /forked/; else, for a path starting
with /forked/, drop the first 7 characters (the leading /forked) and, if
the result is empty, replace it by the root path, then delegate; else,
for the exact path /forked, rewrite to the root path and delegate; any
other path is answered 404 with a fixed message. -/
def do_GET (path : List Char) : GetOutcome :=
  if path = str "/" ∨ path = str "" then
    .redirect (str "/forked/")
  else if (str "/forked/").isPrefixOf path then
    let p := path.drop 7
    .delegate (if p = str "" then str "/" else p)
  else if path = str "/forked" then
    .delegate (str "/")
  else
    .notFound (str "Only /forked/ path is served")

/-- The condition of the cache branch of end_headers (server.py line
38): the request path ends with .js, .html or .css. -/
def cache_sensitive (path : List Char) : Bool :=
  (str ".js").isSuffixOf path || (str ".html").isSuffixOf path
    || (str ".css").isSuffixOf path

/-- The headers appended by the overridden PWAHandler.end_headers
(server.py lines 35-44) just before the buffered headers are flushed by
the inherited end_headers.  They depend on the request path as it stands
at end-of-headers time. -/
def end_headers (path : List Char) : List (List Char × List Char) :=
  (str "Service-Worker-Allowed", str "/") ::
    (if cache_sensitive path then
      [(str "Cache-Control", str "no-store, no-cache, must-revalidate, max-age=0"),
       (str "Pragma", str "no-cache"),
       (str "Expires", str "0")]
    else
      [(str "Cache-Control", str "no-cache")])

/-- Body sent by the send_error method of the HTTP library: an HTML page
that contains the explanatory message.  Modelled by the message itself,
which is all the claims observe (containment of the message in the
body). -/
def errorBody (message : List Char) : List Char := message

/-- The do_GET method of SimpleHTTPRequestHandler as inherited by
PWAHandler (library behaviour): serve the file stored at the (already
rewritten) path with status 200, or answer 404 if no file exists there.
Either way the overridden end_headers of the subclass runs, so the
injected headers close the header list. -/
def super_do_GET (fs : FS) (path : List Char) : Response :=
  match fs path with
  | some contents => ⟨200, end_headers path, contents⟩
  | none => ⟨404, end_headers path, errorBody (str "File not found")⟩

/-- Default dispatch of the underlying library for a request that is not
intercepted by the overridden do_GET: GET and HEAD use the inherited
static-file behaviour (a HEAD response has no body), any other method is
answered 501.  Method resolution still reaches the overridden
end_headers, so the injected headers appear on every response. -/
def library_dispatch (fs : FS) (method path : List Char) : Response :=
  if method = str "GET" then
    super_do_GET fs path
  else if method = str "HEAD" then
    let r := super_do_GET fs path
    ⟨r.status, r.headers, str ""⟩
  else
    ⟨501, end_headers path, errorBody (str "Unsupported method")⟩

/-- The complete response of PWAHandler to one request: a GET goes
through the overridden do_GET (redirect, error, or delegation with the
rewritten path), every other method falls through to the default library
behaviour with the path unmodified. -/
def handle (fs : FS) (r : Request) : Response :=
  if r.method = str "GET" then
    match do_GET r.path with
    | .redirect loc => ⟨301, (str "Location", loc) :: end_headers r.path, str ""⟩
    | .notFound msg => ⟨404, end_headers r.path, errorBody msg⟩
    | .delegate p => super_do_GET fs p
  else
    library_dispatch fs r.method r.path

/-- The value of the request path at the moment end_headers runs for a
given request: the rewritten path when do_GET delegated, the original
path otherwise. -/
def effective_path (r : Request) : List Char :=
  if r.method = str "GET" then
    match do_GET r.path with
    | .delegate p => p
    | _ => r.path
  else r.path

/-- One request/response exchange of the running server.  The only
cross-request effect of the handler is the log line printed by
log_message; the response is computed from the request alone. -/
def serverStep (fs : FS) (log : List (List Char)) (r : Request) :
    List (List Char) × Response :=
  (log ++ [r.method ++ str " " ++ r.path], handle fs r)

/-- The sequential accept-and-serve loop of the server over a list of
requests, threading the accumulated log. -/
def runServer (fs : FS) (log : List (List Char)) :
    List Request → List (List Char) × List Response
  | [] => (log, [])
  | r :: rs =>
    let s := serverStep fs log r
    let t := runServer fs s.1 rs
    (t.1, s.2 :: t.2)

/-- A filesystem with no files, used for concrete witnesses. -/
def fsEmpty : FS := fun _ => none

/-- Any path that starts with /forked/ is that literal prefix followed
by a remainder. -/
lemma forked_prefix_decomp {path : List Char}
    (h : (str "/forked/").isPrefixOf path) :
    ∃ t, path = str "/forked/" ++ t := by
  rw [List.isPrefixOf_iff_prefix] at h
  obtain ⟨t, rfl⟩ := h
  exact ⟨t, rfl⟩

/-- Evaluation of do_GET on a path of the form /forked/ followed by a
remainder: the guard of the empty-result fallback is never true, and the
delegated path is the remainder preceded by the trailing slash. -/
lemma do_GET_forked_append (t : List Char) :
    do_GET (str "/forked/" ++ t) = .delegate ('/' :: t) := by
  have hpre : (str "/forked/").isPrefixOf (str "/forked/" ++ t) := by
    rw [List.isPrefixOf_iff_prefix]
    exact List.prefix_append _ _
  unfold do_GET
  rw [if_neg (by simp [str]), if_pos hpre]
  simp [str]

/-- Evaluation of do_GET on a path matched by no branch but the last:
the fixed 404 message is produced. -/
lemma do_GET_notFound {path : List Char} (h0 : path ≠ str "")
    (h1 : path ≠ str "/") (h2 : ¬ (str "/forked/").isPrefixOf path)
    (h3 : path ≠ str "/forked") :
    do_GET path = .notFound (str "Only /forked/ path is served") := by
  unfold do_GET
  rw [if_neg (by tauto), if_neg (by simpa using h2), if_neg h3]

/-- Shape of the header list of every response: the headers injected by
the overridden end_headers for the effective path close the list, and
anything before them is a Location header. -/
lemma handle_headers (fs : FS) (r : Request) :
    ∃ pre, (handle fs r).headers = pre ++ end_headers (effective_path r) ∧
      ∀ x ∈ pre, x.1 = str "Location" := by
  unfold handle effective_path
  by_cases hm : r.method = str "GET"
  · rw [if_pos hm, if_pos hm]
    cases hdo : do_GET r.path with
    | redirect loc => exact ⟨[(str "Location", loc)], by simp, by simp⟩
    | notFound msg => exact ⟨[], by simp, by simp⟩
    | delegate p =>
        cases hf : fs p with
        | some c => exact ⟨[], by simp [super_do_GET, hf], by simp⟩
        | none => exact ⟨[], by simp [super_do_GET, hf], by simp⟩
  · rw [if_neg hm, if_neg hm]
    unfold library_dispatch
    rw [if_neg hm]
    by_cases hh : r.method = str "HEAD"
    · rw [if_pos hh]
      cases hf : fs r.path with
      | some c => exact ⟨[], by simp [super_do_GET, hf], by simp⟩
      | none => exact ⟨[], by simp [super_do_GET, hf], by simp⟩
    · rw [if_neg hh]
      exact ⟨[], by simp, by simp⟩

/-- C1: for every request path starting with the literal prefix
/forked/, do_GET delegates with the path rewritten by dropping exactly
the leading 7 characters; the dropped characters are the leading /forked
and what remains is the trailing slash followed by the remainder; and
whenever that removal yields the empty string the effective path is set
to the root path. -/
theorem forked_prefix_rewrite (path : List Char)
    (h : (str "/forked/").isPrefixOf path) :
    do_GET path = .delegate (path.drop 7) ∧
    path.drop 7 = '/' :: path.drop 8 ∧
    (path.drop 7 = str "" → do_GET path = .delegate (str "/")) := by
  obtain ⟨t, rfl⟩ := forked_prefix_decomp h
  refine ⟨?_, ?_, ?_⟩
  · exact do_GET_forked_append t
  · rfl
  · intro hempty
    exact absurd hempty (by simp [str])

/-- Witness for C1 at the concrete path /forked/index.html. -/
theorem forked_prefix_rewrite_witness :
    do_GET (str "/forked/index.html") = .delegate ((str "/forked/index.html").drop 7) ∧
    (str "/forked/index.html").drop 7 = '/' :: (str "/forked/index.html").drop 8 ∧
    ((str "/forked/index.html").drop 7 = str "" →
      do_GET (str "/forked/index.html") = .delegate (str "/")) :=
  forked_prefix_rewrite (str "/forked/index.html") (by decide)

/-- C2: a GET request whose path is neither empty, nor the root path,
nor exactly /forked, nor under /forked/, is answered 404 with a body
containing the fixed message, without delegation to the static-file
behaviour. -/
theorem other_paths_404 (fs : FS) (path : List Char) (h0 : path ≠ str "")
    (h1 : path ≠ str "/") (h2 : ¬ (str "/forked/").isPrefixOf path)
    (h3 : path ≠ str "/forked") :
    do_GET path = .notFound (str "Only /forked/ path is served") ∧
    (handle fs ⟨str "GET", path⟩).status = 404 ∧
    (str "Only /forked/ path is served") <:+: (handle fs ⟨str "GET", path⟩).body := by
  have hdo := do_GET_notFound h0 h1 h2 h3
  have hR : handle fs ⟨str "GET", path⟩ =
      ⟨404, end_headers path, errorBody (str "Only /forked/ path is served")⟩ := by
    simp [handle, hdo]
  refine ⟨hdo, ?_, ?_⟩
  · rw [hR]
  · rw [hR]
    exact List.infix_refl _

/-- Witness for C2 at the concrete path /other. -/
theorem other_paths_404_witness :
    do_GET (str "/other") = .notFound (str "Only /forked/ path is served") ∧
    (handle fsEmpty ⟨str "GET", str "/other"⟩).status = 404 ∧
    (str "Only /forked/ path is served") <:+:
      (handle fsEmpty ⟨str "GET", str "/other"⟩).body :=
  other_paths_404 fsEmpty (str "/other") (by decide) (by decide) (by decide) (by decide)

/-- C3: a GET request for the empty path or the root path is answered
with status 301, a Location header pointing at /forked/, and an empty
body, and do_GET terminates in the redirect branch without delegating to
the static-file behaviour. -/
theorem root_redirect_301 (fs : FS) (path : List Char)
    (h : path = str "" ∨ path = str "/") :
    do_GET path = .redirect (str "/forked/") ∧
    (handle fs ⟨str "GET", path⟩).status = 301 ∧
    (str "Location", str "/forked/") ∈ (handle fs ⟨str "GET", path⟩).headers ∧
    (handle fs ⟨str "GET", path⟩).body = str "" := by
  have hdo : do_GET path = .redirect (str "/forked/") := by
    unfold do_GET
    rw [if_pos (by tauto)]
  have hR : handle fs ⟨str "GET", path⟩ =
      ⟨301, (str "Location", str "/forked/") :: end_headers path, str ""⟩ := by
    simp [handle, hdo]
  refine ⟨hdo, ?_, ?_, ?_⟩
  · rw [hR]
  · rw [hR]
    exact List.mem_cons_self _ _
  · rw [hR]

/-- Witness for C3 at the concrete root path. -/
theorem root_redirect_301_witness :
    do_GET (str "/") = .redirect (str "/forked/") ∧
    (handle fsEmpty ⟨str "GET", str "/"⟩).status = 301 ∧
    (str "Location", str "/forked/") ∈ (handle fsEmpty ⟨str "GET", str "/"⟩).headers ∧
    (handle fsEmpty ⟨str "GET", str "/"⟩).body = str "" :=
  root_redirect_301 fsEmpty (str "/") (by decide)

/-- C4: at end-of-headers time, if the effective request path ends with
.js, .html or .css then the response headers contain the strict
no-store cache directives, the Pragma header and the Expires header;
for every other effective path the response headers contain the weaker
no-cache directive and do not contain the no-store variant. -/
theorem cache_headers (fs : FS) (r : Request) :
    if cache_sensitive (effective_path r) then
      (str "Cache-Control", str "no-store, no-cache, must-revalidate, max-age=0")
          ∈ (handle fs r).headers ∧
      (str "Pragma", str "no-cache") ∈ (handle fs r).headers ∧
      (str "Expires", str "0") ∈ (handle fs r).headers
    else
      (str "Cache-Control", str "no-cache") ∈ (handle fs r).headers ∧
      (str "Cache-Control", str "no-store, no-cache, must-revalidate, max-age=0")
          ∉ (handle fs r).headers := by
  obtain ⟨pre, hh, hpre⟩ := handle_headers fs r
  by_cases hc : cache_sensitive (effective_path r)
  · rw [if_pos hc]
    refine ⟨?_, ?_, ?_⟩ <;>
      · rw [hh]
        exact List.mem_append_right _ (by simp [end_headers, hc])
  · rw [if_neg hc]
    constructor
    · rw [hh]
      exact List.mem_append_right _ (by simp [end_headers, hc])
    · intro hmem
      rw [hh] at hmem
      rcases List.mem_append.1 hmem with h1 | h2
      · have := hpre _ h1
        exact absurd this (by decide)
      · rw [end_headers] at h2
        simp only [hc, Bool.false_eq_true, if_false] at h2
        exact absurd h2 (by decide)

/-- C5: every response of the handler, whatever the request method, path
and response status, carries the Service-Worker-Allowed header, and the
block of headers injected by end_headers for the effective path closes
the header list (it runs after the status line and the library headers,
right before the flush). -/
theorem service_worker_allowed_always (fs : FS) (r : Request) :
    (str "Service-Worker-Allowed", str "/") ∈ (handle fs r).headers ∧
    end_headers (effective_path r) <:+ (handle fs r).headers := by
  obtain ⟨pre, hh, _⟩ := handle_headers fs r
  rw [hh]
  constructor
  · exact List.mem_append_right _ (by simp [end_headers])
  · exact List.suffix_append _ _

/-- C6: a GET request for the exact path /forked (no trailing slash) is
rewritten to the root path and delegated to the static-file behaviour,
answered 200 or 404 according to whether a file exists at the root, and
is not rejected with the fixed 404 message. -/
theorem forked_exact_rewrite (fs : FS) :
    do_GET (str "/forked") = .delegate (str "/") ∧
    handle fs ⟨str "GET", str "/forked"⟩ = super_do_GET fs (str "/") ∧
    (handle fs ⟨str "GET", str "/forked"⟩).status =
      if (fs (str "/")).isSome then 200 else 404 := by
  have hdo : do_GET (str "/forked") = .delegate (str "/") := by decide
  have hR : handle fs ⟨str "GET", str "/forked"⟩ = super_do_GET fs (str "/") := by
    simp [handle, hdo]
  refine ⟨hdo, hR, ?_⟩
  rw [hR]
  cases hf : fs (str "/") with
  | some c => simp [super_do_GET, hf]
  | none => simp [super_do_GET, hf]

/-- C7 counterexample: the 301 root-redirect response does carry
injected headers beyond the Location header: the overridden end_headers
runs on it and adds the Service-Worker-Allowed header and a
Cache-Control header. -/
theorem redirect_carries_injected_headers :
    (handle fsEmpty ⟨str "GET", str "/"⟩).status = 301 ∧
    (str "Location", str "/forked/") ∈ (handle fsEmpty ⟨str "GET", str "/"⟩).headers ∧
    (str "Service-Worker-Allowed", str "/")
        ∈ (handle fsEmpty ⟨str "GET", str "/"⟩).headers ∧
    (str "Cache-Control", str "no-cache")
        ∈ (handle fsEmpty ⟨str "GET", str "/"⟩).headers := by
  decide

/-- C7 amended: the 301 root-redirect response carries exactly the
Location header followed by the headers injected by end_headers for the
unrewritten path, namely the Service-Worker-Allowed header and the weak
no-cache directive; request handling still terminates in the redirect
branch without delegating to the static-file behaviour. -/
theorem root_redirect_headers (fs : FS) (path : List Char)
    (h : path = str "" ∨ path = str "/") :
    handle fs ⟨str "GET", path⟩ =
      ⟨301, (str "Location", str "/forked/") :: end_headers path, str ""⟩ ∧
    end_headers path =
      [(str "Service-Worker-Allowed", str "/"),
       (str "Cache-Control", str "no-cache")] ∧
    do_GET path = .redirect (str "/forked/") := by
  have hdo : do_GET path = .redirect (str "/forked/") := by
    unfold do_GET
    rw [if_pos (by tauto)]
  refine ⟨?_, ?_, hdo⟩
  · simp [handle, hdo]
  · rcases h with rfl | rfl <;> decide

/-- Witness for the amended C7 at the concrete root path. -/
theorem root_redirect_headers_witness :
    handle fsEmpty ⟨str "GET", str "/"⟩ =
      ⟨301, (str "Location", str "/forked/") :: end_headers (str "/"), str ""⟩ ∧
    end_headers (str "/") =
      [(str "Service-Worker-Allowed", str "/"),
       (str "Cache-Control", str "no-cache")] ∧
    do_GET (str "/") = .redirect (str "/forked/") :=
  root_redirect_headers fsEmpty (str "/") (by decide)

/-- C8: the redirect, rewrite and rejection logic is attached to GET
only: a request with any other method is handled by the default library
dispatch with the request path unmodified, and the effective path at
end-of-headers time is the original path. -/
theorem non_get_passthrough (fs : FS) (m path : List Char)
    (h : m ≠ str "GET") :
    handle fs ⟨m, path⟩ = library_dispatch fs m path ∧
    effective_path ⟨m, path⟩ = path := by
  constructor
  · unfold handle
    rw [if_neg (by simpa using h)]
  · unfold effective_path
    rw [if_neg (by simpa using h)]

/-- Witness for C8 at the concrete method HEAD and path /x. -/
theorem non_get_passthrough_witness :
    handle fsEmpty ⟨str "HEAD", str "/x"⟩ =
      library_dispatch fsEmpty (str "HEAD") (str "/x") ∧
    effective_path ⟨str "HEAD", str "/x"⟩ = str "/x" :=
  non_get_passthrough fsEmpty (str "HEAD") (str "/x") (by decide)

/-- C9: request handling is stateless and deterministic in the request:
the response of a server step is a function of the request alone, it
does not depend on the accumulated cross-request state (the log), and a
whole run answers each request of its input list independently of the
requests handled before it. -/
theorem stateless_deterministic (fs : FS) (log log2 : List (List Char))
    (r : Request) (rs : List Request) :
    (serverStep fs log r).2 = handle fs r ∧
    (serverStep fs log r).2 = (serverStep fs log2 r).2 ∧
    (runServer fs log rs).2 = rs.map (handle fs) := by
  refine ⟨rfl, rfl, ?_⟩
  induction rs generalizing log with
  | nil => rfl
  | cons a as ih => simp [runServer, serverStep, ih]

/-- C10: a path starting with /forked/ has the 8-character prefix, so
dropping 7 characters leaves a non-empty path that starts with a slash;
hence the empty-result fallback of the rewrite branch is unreachable,
and every rewritten path that do_GET delegates to the static-file
behaviour starts with a slash. -/
theorem rewritten_path_nonempty :
    (∀ path : List Char, (str "/forked/").isPrefixOf path →
      8 ≤ path.length ∧ path.drop 7 ≠ str "" ∧ (path.drop 7).head? = some '/') ∧
    (∀ path p : List Char, do_GET path = .delegate p → p.head? = some '/') := by
  constructor
  · intro path h
    obtain ⟨t, rfl⟩ := forked_prefix_decomp h
    refine ⟨by simp [str], by simp [str], rfl⟩
  · intro path p h
    unfold do_GET at h
    by_cases h0 : path = str "/" ∨ path = str ""
    · rw [if_pos h0] at h
      exact absurd h (by simp)
    · rw [if_neg h0] at h
      by_cases h1 : (str "/forked/").isPrefixOf path
      · rw [if_pos h1] at h
        obtain ⟨t, rfl⟩ := forked_prefix_decomp h1
        simp only [GetOutcome.delegate.injEq] at h
        rw [show (str "/forked/" ++ t).drop 7 = '/' :: t from rfl] at h
        rw [if_neg (by simp [str])] at h
        rw [← h]
        rfl
      · rw [if_neg h1] at h
        by_cases h2 : path = str "/forked"
        · rw [if_pos h2] at h
          simp only [GetOutcome.delegate.injEq] at h
          rw [← h]
          rfl
        · rw [if_neg h2] at h
          exact absurd h (by simp)

/-- Witness for C10 at the concrete path /forked/a. -/
theorem rewritten_path_nonempty_witness :
    (8 ≤ (str "/forked/a").length ∧ (str "/forked/a").drop 7 ≠ str "" ∧
      ((str "/forked/a").drop 7).head? = some '/') ∧
    (str "/a").head? = some '/' :=
  ⟨rewritten_path_nonempty.1 (str "/forked/a") (by decide),
   rewritten_path_nonempty.2 (str "/forked/a") (str "/a") (by decide)⟩

end PWAServer
